import Mathlib

/-!
Order-ingestion and case-ticketing pipeline: a shallow embedding.

This file embeds the core of a dental-lab order-management backend
(Express routes over a SQL Server database) and proves properties of it:

* `src/routes/cases.js` — the `POST /cases/create-case` handler with its
  helpers `extractCaseDataFromOrder`, `processOrderLineItems` and
  `processEncodedSku`;
* `src/utils/ticketService.js` and `src/services/ticketService.js` — the
  two (duplicated, slightly divergent) `createTicket` implementations and
  the `replaceTokens` token resolver;
* `src/config/queries.js` — the SQL statements those functions execute,
  modelled as operations on an explicit database state (`DB`).

JavaScript strings are modelled by `String` / `List Char`; `null`-able
values by `Option`; JS truthiness of a string (`null`/`""` are falsy) by
`jsTruthy`.  `GETDATE()` is a day-counter `DB.now`; `DATEADD(day, k, d)`
is `d + k`.  Auto-increment identities are modelled by explicit counters
in `DB`.  Sequelize transactions commit/rollback atomically, so each
route handler is a pure function `… → DB → Result × DB` that returns the
original state on every error path.
-/

/-! ## JavaScript string primitives -/

/-- JS truthiness of a nullable string: `null` and `""` are falsy. -/
def jsTruthy : Option String → Bool
  | none => false
  | some s => s ≠ ""

/-- JS `a || b` on nullable strings, collapsing to `none` when both are falsy
(`x || y || null`). -/
def jsOrElseOpt (a b : Option String) : Option String :=
  if jsTruthy a then a else if jsTruthy b then b else none

/-- Substring test on character lists (JS `String.prototype.includes`). -/
def hasSubstrL (pat : List Char) : List Char → Bool
  | [] => pat.isPrefixOf []
  | c :: rest => pat.isPrefixOf (c :: rest) || hasSubstrL pat rest

/-- Substring test on strings (JS `s.includes(pat)`). -/
def hasSubstr (pat s : String) : Bool := hasSubstrL pat.data s.data

/-- JS `s.toUpperCase()` (ASCII, which is all the source feeds it). -/
def jsToUpper (s : String) : String := ⟨s.data.map Char.toUpper⟩

/-- JS `s.substring(0, n)`. -/
def jsSubstring (s : String) (n : Nat) : String := ⟨s.data.take n⟩

/-- JS `s.startsWith(pre)`. -/
def jsStartsWith (pre s : String) : Bool := pre.data.isPrefixOf s.data

/-- JS whitespace for `trim` (the characters that occur in this code base). -/
def isJsWS (c : Char) : Bool := c = ' ' || c = '\t' || c = '\n' || c = '\r'

/-- JS `s.trim()`. -/
def jsTrim (s : String) : String :=
  ⟨((s.data.dropWhile isJsWS).reverse.dropWhile isJsWS).reverse⟩

/-- JS `array.join(";")` (used for the address merge). -/
def joinSemi : List String → String
  | [] => ""
  | [x] => x
  | x :: xs => x ++ ";" ++ joinSemi xs

/-- Fuel-driven worker for `replaceAllL`.  Scans left to right; on a match of
`pat` it emits `val` and resumes after the matched occurrence (the emitted
`val` is never rescanned), exactly like a JS global regex replace of an
escaped literal pattern. -/
def replaceAllGo (pat val : List Char) : Nat → List Char → List Char
  | 0, s => s
  | _ + 1, [] => []
  | fuel + 1, c :: rest =>
    if pat.isPrefixOf (c :: rest) then
      val ++ replaceAllGo pat val fuel ((c :: rest).drop pat.length)
    else
      c :: replaceAllGo pat val fuel rest

/-- JS `s.replace(new RegExp(escape(pat), "g"), val)` for a non-empty literal
`pat`: global, leftmost, non-overlapping replacement. -/
def replaceAllL (pat val s : List Char) : List Char := replaceAllGo pat val s.length s

/-- String wrapper for `replaceAllL`. -/
def replaceAllStr (pat val s : String) : String := ⟨replaceAllL pat.data val.data s.data⟩

/-! ## SKU decoder (`processEncodedSku`, src/routes/cases.js lines 150-240)

The source normalizes a SKU by three chained global replaces — every `.`
becomes `~`, every `--` becomes the empty string, every `-` becomes `.` —
and then splits on `"."`.  The single-character replaces are `List.map` of
a character swap; the `--` removal is the left-to-right non-overlapping
global replace `stripDD`. -/

/-- Global replace of `.` by `~` as a character map. -/
def dotToTilde (c : Char) : Char := if c = '.' then '~' else c

/-- Global replace of `-` by `.` as a character map. -/
def dashToDot (c : Char) : Char := if c = '-' then '.' else c

/-- Global replace of `~` by `.` as a character map (sentinel restoration). -/
def tildeToDot (c : Char) : Char := if c = '~' then '.' else c

/-- Global replace of `--` by the empty string: removes left-to-right
non-overlapping occurrences of `"--"`. -/
def stripDD : List Char → List Char
  | [] => []
  | [c] => [c]
  | c1 :: c2 :: rest =>
    if c1 = '-' ∧ c2 = '-' then stripDD rest
    else c1 :: stripDD (c2 :: rest)

/-- JS `s.split(".")` on character lists: `"".split(".")` is `[""]`,
separators produce empty fields. -/
def splitOnDot : List Char → List (List Char)
  | [] => [[]]
  | c :: rest =>
    if c = '.' then [] :: splitOnDot rest
    else
      match splitOnDot rest with
      | [] => [[c]]
      | r :: rs => (c :: r) :: rs

/-- The normalization chain of `processEncodedSku`:
dots to `~`, strip `--`, dashes to `.`. -/
def skuNormalizeL (s : List Char) : List Char :=
  (stripDD (s.map dotToTilde)).map dashToDot

/-- The pure result of decoding one encoded SKU: the fields the source
computes before its inserts. -/
structure DecodedSku where
  product : String
  toothLocation : String
  qty : Nat
  shade : String
  deriving DecidableEq, Repr

/-- The parsing part of `processEncodedSku`: normalize, split, require at
least 3 fields (`none` is the "Invalid SKU format" early return), restore
dots in `parts[0]` (named `product` in the source), and map the
upper/lower code.  `parts[2]` (`shade`) is taken verbatim, so a `~`
sentinel written for a literal dot is left in place. -/
def decodeSkuL (s : List Char) : Option DecodedSku :=
  match splitOnDot (skuNormalizeL s) with
  | p0 :: p1 :: p2 :: _ =>
    let product := String.mk (p0.map tildeToDot)
    let ul := jsToUpper (String.mk p1)
    let tq : String × Nat :=
      if ul = "U" then ("Upper", 1)
      else if ul = "L" then ("Lower", 1)
      else if ul = "UL" ∨ ul = "LU" then ("Upper, Lower", 2)
      else ("", 1)
    some { product := product, toothLocation := tq.1, qty := tq.2, shade := String.mk p2 }
  | _ => none

/-- String wrapper for `decodeSkuL`. -/
def decodeSku (s : String) : Option DecodedSku := decodeSkuL s.data

/-! ## The note-scan pattern `/(--[A-Z0-9]+\-[A-Z]+\-[A-Z0-9\.]+--)/g` -/

/-- Character class `[A-Z0-9]` (product segment). -/
def isProdChar (c : Char) : Bool := ('A' ≤ c && c ≤ 'Z') || ('0' ≤ c && c ≤ '9')

/-- Character class `[A-Z]` (upper/lower segment). -/
def isAlphaUp (c : Char) : Bool := 'A' ≤ c && c ≤ 'Z'

/-- Character class `[A-Z0-9.]` (shade segment). -/
def isShadeChar (c : Char) : Bool := isProdChar c || c = '.'

/-- One match attempt of the SKU pattern anchored at the head of `s`.  The
three `+`-classes all exclude `-`, so maximal munch is exact for the JS
backtracking engine here; on success returns the matched text and the
remaining input. -/
def matchSkuAt (s : List Char) : Option (List Char × List Char) :=
  match s with
  | '-' :: '-' :: r0 =>
    let a := r0.takeWhile isProdChar
    let r1 := r0.dropWhile isProdChar
    if a.isEmpty then none
    else
      match r1 with
      | '-' :: r2 =>
        let b := r2.takeWhile isAlphaUp
        let r3 := r2.dropWhile isAlphaUp
        if b.isEmpty then none
        else
          match r3 with
          | '-' :: r4 =>
            let c := r4.takeWhile isShadeChar
            let r5 := r4.dropWhile isShadeChar
            if c.isEmpty then none
            else
              match r5 with
              | '-' :: '-' :: r6 =>
                some ('-' :: '-' :: a ++ '-' :: b ++ '-' :: c ++ ['-', '-'], r6)
              | _ => none
          | _ => none
      | _ => none
  | _ => none

/-- Fuel-driven global scan: try a match at each position, resuming after
each successful match (JS `note.match(pattern)` with the `g` flag). -/
def scanSkusGo : Nat → List Char → List (List Char)
  | 0, _ => []
  | _ + 1, [] => []
  | fuel + 1, s@(_ :: rest) =>
    match matchSkuAt s with
    | some (m, r) => m :: scanSkusGo fuel r
    | none => scanSkusGo fuel rest

/-- All matches of the embedded-SKU pattern in a string. -/
def scanSkus (s : String) : List String := (scanSkusGo s.data.length s.data).map String.mk

/-- The language of full matches of the note-scan regex
`--[A-Z0-9]+-[A-Z]+-[A-Z0-9.]+--`. -/
def matchesSkuPattern (s : List Char) : Prop :=
  ∃ a b c : List Char,
    a ≠ [] ∧ b ≠ [] ∧ c ≠ [] ∧
    (∀ x ∈ a, isProdChar x = true) ∧
    (∀ x ∈ b, isAlphaUp x = true) ∧
    (∀ x ∈ c, isShadeChar x = true) ∧
    s = '-' :: '-' :: a ++ '-' :: b ++ '-' :: c ++ ['-', '-']

/-! ## Dates and database rows

`GETDATE()` is modelled as a day counter `DB.now : Nat` wherever the SQL
does day arithmetic (`DATEADD(day, k, GETDATE())` is `now + k`), and as a
calendar value `DB.today : JsDate` where JavaScript formats it. -/

/-- A JS calendar date as the token resolver renders it; `month` is the
human month (the source applies `getMonth() + 1` before formatting). -/
structure JsDate where
  month : Nat
  day : Nat
  year : Nat
  deriving DecidableEq, Repr

/-- JS `n.toString().padStart(2, "0")`. -/
def pad2 (n : Nat) : String := if n < 10 then "0" ++ toString n else toString n

/-- `formatDate` from replaceTokens: `MM/DD/YYYY`, empty for a null date. -/
def formatDate : Option JsDate → String
  | none => ""
  | some d => pad2 d.month ++ "/" ++ pad2 d.day ++ "/" ++ toString d.year

/-- `formatAddress` from replaceTokens: name, address lines, "city," state
zip, with separators only between present components. -/
def formatAddress (nm a1 a2 city st zip : Option String) : String :=
  let s0 := nm.getD ""
  let s1 := if jsTruthy a1 then s0 ++ (if s0 ≠ "" then "\r\n" else "") ++ a1.getD "" else s0
  let s2 := if jsTruthy a2 && jsTrim (a2.getD "") ≠ "" then s1 ++ "\r\n" ++ a2.getD "" else s1
  let s3 := if jsTruthy city then s2 ++ (if s2 ≠ "" then "\r\n" else "") ++ city.getD "" ++ "," else s2
  let s4 := if jsTruthy st then s3 ++ " " ++ st.getD "" else s3
  if jsTruthy zip then s4 ++ " " ++ zip.getD "" else s4

/-- The denormalized row produced by the token resolver's seven-table join
(`getCaseDataForTokens` in src/config/queries.js); every column is nullable
because all joins are `LEFT JOIN`s. -/
structure TokenData where
  patientFirstName : Option String := none
  patientLastName : Option String := none
  patientNum : Option String := none
  dateReceived : Option JsDate := none
  dateRequiredByDR : Option JsDate := none
  dateEstimatedReturn : Option JsDate := none
  dateShipToLab : Option JsDate := none
  shipToLabTrackNum : Option String := none
  labRefNumber : Option String := none
  shopifyEmail : Option String := none
  statusStreamlineOptions : Option String := none
  statusDoctorView : Option String := none
  statusDescription : Option String := none
  statusGroupName : Option String := none
  userID : Option Nat := none
  userLogin : Option String := none
  title : Option String := none
  userFName : Option String := none
  userLName : Option String := none
  password : Option String := none
  emailAddr : Option String := none
  fax : Option String := none
  caseTrackingEmail : Option String := none
  dateCreated : Option JsDate := none
  customerDisplayName : Option String := none
  customerAccountNumber : Option String := none
  primaryDoctorName : Option String := none
  customerEmailAddress : Option String := none
  customerPhone : Option String := none
  shipToName : Option String := none
  shipToAddress1 : Option String := none
  shipToAddress2 : Option String := none
  shipToCity : Option String := none
  shipToState : Option String := none
  shipToZip : Option String := none
  shipToPhone1 : Option String := none
  inboundCarrierName : Option String := none
  customerName : Option String := none
  billAddress1 : Option String := none
  billAddress2 : Option String := none
  billCity : Option String := none
  billState : Option String := none
  billZip : Option String := none
  labName : Option String := none
  labContactName1 : Option String := none
  labEmail : Option String := none
  labCCEmail : Option String := none
  deriving DecidableEq, Repr

/-- JS `(n || "").toString()` on a nullable number: `null` and `0` render
as the empty string. -/
def jsNumToStr : Option Nat → String
  | none => ""
  | some n => if n = 0 then "" else toString n

/-- The replacement map of `replaceTokens` (src/utils/ticketService.js
lines 489-553 and the identical copy in src/utils/tokenReplacer.js), as a
list of `(token, value)` pairs in the source's insertion order — the order
`Object.entries` iterates and replacements are applied in. -/
def tokenTable (d : TokenData) (caseId ticketNumber : String) (today : JsDate) :
    List (String × String) :=
  [ ("@@CASE_ID", caseId),
    ("@@TODAY", formatDate (some today)),
    ("@@TICKET_NUMBER", ticketNumber),
    ("@@PATIENT_NAME",
      jsTrim ((d.patientFirstName.getD "") ++ " " ++ (d.patientLastName.getD "") ++ " #" ++
        (d.patientNum.getD ""))),
    ("@@PATIENT_FIRST", d.patientFirstName.getD ""),
    ("@@PATIENT_LAST", d.patientLastName.getD ""),
    ("@@PATIENT_NUMBER", d.patientNum.getD ""),
    ("@@DOCTOR_NAME",
      jsTrim ((d.title.getD "") ++ " " ++ (d.userFName.getD "") ++ " " ++ (d.userLName.getD ""))),
    ("@@DOCTOR_LNAME", jsTrim ((d.title.getD "") ++ " " ++ (d.userLName.getD ""))),
    ("@@DOCTOR_LASTNAME", jsTrim ((d.title.getD "") ++ " " ++ (d.userLName.getD ""))),
    ("@@DOCTOR_LOGIN", d.userLogin.getD ""),
    ("@@USERLOGIN", d.userLogin.getD ""),
    ("@@PASSWORD", d.password.getD ""),
    ("@@DOCTOR_SUPPORT_EMAIL", d.emailAddr.getD ""),
    ("@@DOCTOR_TRACKING_EMAIL", d.caseTrackingEmail.getD ""),
    ("@@DOCTOR_FAX", d.fax.getD ""),
    ("@@DOCTOR_FAX_EMAIL", if jsTruthy d.fax then (d.fax.getD "") ++ "@rapidfax.com" else ""),
    ("@@DOCTOR_ID", jsNumToStr d.userID),
    ("@@CASEEMPLOYEEFIRST", d.userFName.getD ""),
    ("@@DATE_USER_CREATED", formatDate d.dateCreated),
    ("@@CUSTOMER_NAME", d.customerDisplayName.getD ""),
    ("@@CUSTOMER_ACCOUNT_NUMBER", d.customerAccountNumber.getD ""),
    ("@@PRIMARY_DOCTOR", d.primaryDoctorName.getD ""),
    ("@@CUSTOMER_BILLING_EMAIL", d.customerEmailAddress.getD ""),
    ("@@CUSTOMER_ACCOUNTING_EMAIL", d.customerEmailAddress.getD ""),
    ("@@BILLINGPHONE", d.customerPhone.getD ""),
    ("@@CASECUSTOMERBILLTO",
      formatAddress d.customerName d.billAddress1 d.billAddress2 d.billCity d.billState d.billZip),
    ("@@CASECUSTOMERSHIPTO",
      formatAddress d.shipToName d.shipToAddress1 d.shipToAddress2 d.shipToCity d.shipToState
        d.shipToZip),
    ("@@SHIPPINGPHONE", d.shipToPhone1.getD ""),
    ("@@INBOUND_CARRIER", d.inboundCarrierName.getD ""),
    ("@@STATUS_STREAMLINE_OPTIONS", d.statusStreamlineOptions.getD ""),
    ("@@STATUS_DOCTOR_VIEW", d.statusDoctorView.getD ""),
    ("@@STATUS_DESCRIPTION", d.statusDescription.getD ""),
    ("@@STATUS_GROUP", d.statusGroupName.getD ""),
    ("@@STATUS", d.statusDoctorView.getD ""),
    ("@@DATE_RECEIVED", formatDate d.dateReceived),
    ("@@DUE_DATE", formatDate d.dateRequiredByDR),
    ("@@DATE_DUE", formatDate d.dateRequiredByDR),
    ("@@DATE_ESTIMATED_RETURN", formatDate d.dateEstimatedReturn),
    ("@@CASE_DATE_SHIP_TO_LAB", formatDate d.dateShipToLab),
    ("@@LABNAME", d.labName.getD ""),
    ("@@LABCONTACTNAME1", d.labContactName1.getD ""),
    ("@@LABEMAIL", d.labEmail.getD ""),
    ("@@LABCCEMAIL", d.labCCEmail.getD ""),
    ("@@LAB_REF_NUMBER", d.labRefNumber.getD ""),
    ("@@CASE_SHIP_TO_LAB_TRACK_NUM", d.shipToLabTrackNum.getD ""),
    ("@@SHOPIFY_EMAIL", d.shopifyEmail.getD "") ]

/-- The replacement loop of `replaceTokens`: one global literal replace per
table entry, applied in table order (token strings contain no regex
metacharacters, so the source's regex escaping is the identity). -/
def applyReplacements (table : List (String × String)) (text : String) : String :=
  table.foldl (fun acc p => replaceAllStr p.1 p.2 acc) text

/-! ## Persistent rows (src/config/queries.js) -/

/-- A `dbo.[Case]` row as written by `caseQueries.insertCase` plus the three
columns touched later by `caseQueries.updateCaseAfterLineItems`. -/
structure CaseRow where
  caseId : String
  userId : Nat
  caseCustomerId : Nat
  caseDateReceived : Nat
  caseDateRequiredByDR : Nat
  casePatientFirstName : String
  casePatientLastName : String
  casePatientNum : String
  shopifyEmail : String
  caseRXInstructions : String
  caseStatusCode : Nat
  caseLabId : Nat
  caseSTRInvoiceDate : Nat
  caseDateEstimatedReturn : Nat
  shipToId : Nat
  caseLabInvoiceFee : Nat
  caseClinicPONumber : String
  shipCarrierId : Nat
  invoiceApprovedForPayment : String
  doctorReviewed : String
  isRushOrder : Nat
  rxInstructionsReviewed : Option String := none
  itemTeethShadeReviewed : Option String := none
  caseType : Option Nat := none
  deriving DecidableEq, Repr

/-- A `dbo.CaseTransaction` row (`caseQueries.insertCaseTransaction`). -/
structure CaseTransactionRow where
  caseId : String
  trnEmployeeId : String
  userId : Nat
  trnStatusCode : Nat
  trnShipRefNum : Option String
  caseDateRecordCreated : Nat
  trnShipCompany : Option String
  shipCarrierId : Nat
  deriving DecidableEq, Repr

/-- A `dbo.Case_Items` row (`caseQueries.insertCaseItem`); `id` is the
`SCOPE_IDENTITY()` value the insert returns. -/
structure CaseItemRow where
  id : Nat
  caseId : String
  name : String
  caseItemTooth : String
  caseItemQty : Nat
  caseItemShadeGing : String
  caseItemShadeBody : String
  caseItemShadeIncis : String
  modifier : Nat
  unitPrice : String
  deriving DecidableEq, Repr

/-- A `dbo.case_item_tooth` row (`caseQueries.insertCaseItemTooth`). -/
structure CaseItemToothRow where
  caseItemId : Nat
  itemTooth : String
  deriving DecidableEq, Repr

/-- A `case_ticket` row (`ticketQueries.insertCaseTicket`). -/
structure CaseTicketRow where
  id : Nat
  caseId : String
  ticketNumber : Nat
  status : String
  isDueDateTicket : Bool
  scheduleDate : Option Nat
  scheduleStatusId : Option Nat
  deriving DecidableEq, Repr

/-- A `case_ticket_detail` row (`ticketQueries.insertCaseTicketDetail`). -/
structure TicketDetailRow where
  id : Nat
  caseTicketId : Nat
  assignedToUserId : Nat
  detailNumber : Nat
  action : String
  fromAddress : String
  toAddress : Option String
  ccAddress : String
  bccAddress : String
  emailTemplateId : Option Nat
  subject : String
  message : String
  createdBy : Nat
  caseStatusCode : Option Nat
  deriving DecidableEq, Repr

/-- A `dbo.Case_Ticket_Assignment_Log` row
(`ticketQueries.insertTicketAssignmentLog`). -/
structure AssignmentLogRow where
  caseTicketDetailId : Nat
  assignedToUserId : Nat
  userId : Nat
  recordTimeAndDate : Nat
  deriving DecidableEq, Repr

/-- An `Email_template` row as selected by `ticketQueries.getEmailTemplate`. -/
structure EmailTemplate where
  id : Nat
  subject : Option String
  message : Option String
  defaultFromAddress : Option String
  defaultToAddress : Option String
  defaultCCAddress : Option String
  defaultBCCAddress : Option String
  defaultScheduledStatusId : Option Nat
  deriving DecidableEq, Repr

/-- A `v_user` row as used by `ticketQueries.getUserEmailFromCase`. -/
structure UserRow where
  userId : Nat
  emailAddr : Option String
  deriving DecidableEq, Repr

/-- The database state the pipeline reads and writes.  `snapshots` holds,
per case id, the denormalized row the token resolver's join query would
return (the joined dimension tables are otherwise outside this model);
`nextItemId` / `nextTicketId` / `nextDetailId` model the auto-increment
identities returned by `SCOPE_IDENTITY()`. -/
structure DB where
  cases : List CaseRow := []
  txs : List CaseTransactionRow := []
  items : List CaseItemRow := []
  teeth : List CaseItemToothRow := []
  tickets : List CaseTicketRow := []
  details : List TicketDetailRow := []
  assignLogs : List AssignmentLogRow := []
  templates : List EmailTemplate := []
  users : List UserRow := []
  snapshots : List (String × TokenData) := []
  nextItemId : Nat := 1
  nextTicketId : Nat := 1
  nextDetailId : Nat := 1
  now : Nat := 0
  today : JsDate := ⟨10, 11, 2026⟩
  deriving DecidableEq, Repr

/-! ## The order payload (Shopify order as the routes receive it) -/

/-- `orderData.customer`, all fields nullable. -/
structure Customer where
  firstName : Option String := none
  lastName : Option String := none
  email : Option String := none
  deriving DecidableEq, Repr

/-- One `lineItems.edges[i].node`. -/
structure LineItem where
  sku : Option String := none
  title : Option String := none
  deriving DecidableEq, Repr

/-- One `shippingLines[i]`. -/
structure ShippingLine where
  code : Option String := none
  title : Option String := none
  deriving DecidableEq, Repr

/-- The order payload; `lineItems`/`shippingLines` are `none` when the
corresponding property (or its `edges`) is absent. -/
structure Order where
  name : String
  note : Option String := none
  customer : Option Customer := none
  email : Option String := none
  lineItems : Option (List LineItem) := none
  shippingLines : Option (List ShippingLine) := none
  deriving DecidableEq, Repr

/-- The authenticated user the JWT middleware attaches (`req.user`). -/
structure Principal where
  userId : Nat
  userName : String
  deriving DecidableEq, Repr

/-! ## Order extractor (`extractCaseDataFromOrder`, src/routes/cases.js
lines 246-315) -/

/-- The record `extractCaseDataFromOrder` returns. -/
structure ExtractedCase where
  caseId : String
  firstName : String
  lastName : String
  email : String
  instructions : String
  userId : Nat
  isRush : Bool
  orderNumber : String
  deriving DecidableEq, Repr

/-- `orderData.customer?.firstName || ""`. -/
def extractFirstName (o : Order) : String := (o.customer.bind Customer.firstName).getD ""

/-- `orderData.customer?.lastName || ""`. -/
def extractLastName (o : Order) : String := (o.customer.bind Customer.lastName).getD ""

/-- `orderData.customer?.email || orderData.email || null`. -/
def extractEmail (o : Order) : Option String :=
  jsOrElseOpt (o.customer.bind Customer.email) o.email

/-- The instructions string: the note (or `""`) with `\n{sku}\n{title}`
appended for every line item. -/
def extractInstructions (o : Order) : String :=
  (o.lineItems.getD []).foldl
    (fun acc it => acc ++ "\n" ++ it.sku.getD "" ++ "\n" ++ it.title.getD "")
    (o.note.getD "")

/-- Rush detection: a line-item SKU equal to the literal rush code or
containing "RUSH", or (only checked when the items found nothing) a
shipping line whose code or title contains "RUSH". -/
def extractIsRush (o : Order) : Bool :=
  (o.lineItems.getD []).any
      (fun it => it.sku.getD "" = "R3333" || hasSubstr "RUSH" (it.sku.getD "")) ||
    (o.shippingLines.getD []).any
      (fun l => hasSubstr "RUSH" (l.code.getD "") || hasSubstr "RUSH" (l.title.getD ""))

/-- `extractCaseDataFromOrder`: validates email and names, assembles the
instructions from the note and every line item, detects rush markers, and
truncates to column widths.  Error messages carry the
"Failed to extract case data: " prefix the source's catch block adds on
rethrow. -/
def extractCaseDataFromOrder (o : Order) (userId : Nat) : Except String ExtractedCase :=
  match extractEmail o with
  | none => .error "Failed to extract case data: Missing customer email"
  | some email =>
    if extractFirstName o = "" ∧ extractLastName o = "" then
      .error "Failed to extract case data: Missing customer first and last name. One must be present."
    else if extractInstructions o = "" then
      .error "Failed to extract case data: Failed to generate instructions. No note or line items"
    else
      .ok { caseId := o.name,
            firstName := jsSubstring (extractFirstName o) 255,
            lastName := jsSubstring (extractLastName o) 255,
            email := jsSubstring email 255,
            instructions := jsSubstring (extractInstructions o) 4000,
            userId := userId,
            isRush := extractIsRush o,
            orderNumber := o.name }

/-! ## Ticket composer (`createTicket` in src/utils/ticketService.js and
src/services/ticketService.js)

The two files are line-for-line duplicates of each other for template
resolution, ticket numbering, token substitution, address defaulting,
overrides, and the ticket/detail inserts (the services copy runs the same
SQL through `ticketQueries`).  They diverge in one step only: the
assignment-log append (step 8/9) is live code in the services copy and a
commented-out block in the utils copy.  `createTicketU` below is the utils
version (the one `POST /cases/create-case` calls); `createTicketS` is the
services version, i.e. the same steps plus the conditional log append. -/

/-- JS truthiness of a nullable number: `null` and `0` are falsy. -/
def jsTruthyNat : Option Nat → Bool
  | none => false
  | some n => n ≠ 0

/-- JS `[a, b].filter(Boolean)` on nullable strings. -/
def truthyVals (l : List (Option String)) : List String :=
  l.filterMap (fun x => if jsTruthy x then x else none)

/-- The caller-supplied option bag of `createTicket`, with the source's
destructuring defaults. -/
structure TicketOptions where
  caseId : String
  userId : Nat
  templateId : Option Nat := none
  ticketStatus : String := "Closed"
  isDueDateTicket : Bool := false
  ticketScheduleDate : Option Nat := none
  ticketScheduleStatusId : Option Nat := none
  assignedToUserId : Option Nat := none
  fromAddress : Option String := none
  toAddress : Option String := none
  ccAddress : Option String := none
  bccAddress : Option String := none
  subject : Option String := none
  message : Option String := none
  overrideSubject : Option String := none
  overrideMessage : Option String := none
  sendEmail : Bool := true
  deriving DecidableEq, Repr

/-- `templateData` after the template-resolution step. -/
structure ResolvedTemplateFields where
  subject : Option String
  message : Option String
  fromAddress : Option String
  toAddress : Option String
  ccAddress : Option String
  bccAddress : Option String
  scheduleStatusId : Option Nat
  deriving DecidableEq, Repr

/-- `SELECT … FROM Email_template WHERE email_template_id = :templateId`,
first row. -/
def findTemplate (tid : Nat) (db : DB) : Option EmailTemplate :=
  db.templates.find? (fun t => t.id == tid)

/-- Template resolution (utils lines 95-145, services lines 63-101): when a
truthy template id finds a template row, subject/message/from are
option-wins-else-template, while to/cc/bcc are the semicolon join of the
truthy members of `[template default, explicit option]`; otherwise the raw
options pass through. -/
def resolveTemplateData (opts : TicketOptions) (db : DB) : ResolvedTemplateFields :=
  let init : ResolvedTemplateFields :=
    { subject := opts.subject, message := opts.message, fromAddress := opts.fromAddress,
      toAddress := opts.toAddress, ccAddress := opts.ccAddress, bccAddress := opts.bccAddress,
      scheduleStatusId := opts.ticketScheduleStatusId }
  if jsTruthyNat opts.templateId then
    match findTemplate (opts.templateId.getD 0) db with
    | some t =>
      { subject := if jsTruthy opts.subject then opts.subject else t.subject,
        message := if jsTruthy opts.message then opts.message else t.message,
        fromAddress := if jsTruthy opts.fromAddress then opts.fromAddress else t.defaultFromAddress,
        toAddress := some (joinSemi (truthyVals [t.defaultToAddress, opts.toAddress])),
        ccAddress := some (joinSemi (truthyVals [t.defaultCCAddress, opts.ccAddress])),
        bccAddress := some (joinSemi (truthyVals [t.defaultBCCAddress, opts.bccAddress])),
        scheduleStatusId :=
          if opts.ticketStatus = "Scheduled" then
            if jsTruthyNat opts.ticketScheduleStatusId then opts.ticketScheduleStatusId
            else t.defaultScheduledStatusId
          else opts.ticketScheduleStatusId }
    | none => init
  else init

/-- `replaceTokens` (utils lines 389-570): fast path for null/empty text or
text without `@@`; otherwise the join query feeds the token table, a
missing case row returns the text unchanged. -/
def replaceTokens (text : Option String) (caseId ticketNumber : String) (db : DB) : String :=
  match text with
  | none => ""
  | some t =>
    if t = "" then ""
    else if hasSubstr "@@" t = false then t
    else
      match db.snapshots.find? (fun p => p.1 == caseId) with
      | none => t
      | some p => applyReplacements (tokenTable p.2 caseId ticketNumber db.today) t

/-- `SELECT COALESCE(MAX(Ticket_Number), 0) + 1 … WHERE case_id = :caseId`. -/
def nextTicketNumber (caseId : String) (db : DB) : Nat :=
  ((db.tickets.filter (fun t => t.caseId == caseId)).map CaseTicketRow.ticketNumber).foldl
    max 0 + 1

/-- `assignedToUserId || userId`. -/
def resolvedAssignee (opts : TicketOptions) : Nat :=
  match opts.assignedToUserId with
  | some a => if a = 0 then opts.userId else a
  | none => opts.userId

/-- The final field values stored on the detail row, after token
substitution, address defaulting and the subject/message overrides. -/
structure ComposedTicketFields where
  fromAddress : String
  toAddress : Option String
  subject : String
  message : String
  ccAddress : String
  bccAddress : String
  caseStatusCode : Option Nat
  deriving DecidableEq, Repr

/-- Steps 3-6 of `createTicket`: allocate the display ticket number, run
`replaceTokens` over from/to/subject/message (not cc/bcc), default the
from-address to the fixed support address and the to-address to the case
user's email (support address when that lookup finds nothing), snapshot
the case status, then let `overrideSubject`/`overrideMessage` replace the
resolved subject/message verbatim. -/
def composeTicketFields (opts : TicketOptions) (db : DB) : ComposedTicketFields :=
  let tf := resolveTemplateData opts db
  let disp := opts.caseId ++ "-" ++ toString (nextTicketNumber opts.caseId db) ++ "-1"
  let fromA := replaceTokens tf.fromAddress opts.caseId disp db
  let toA := replaceTokens tf.toAddress opts.caseId disp db
  let subj := replaceTokens tf.subject opts.caseId disp db
  let msg := replaceTokens tf.message opts.caseId disp db
  let fromA := if fromA = "" then "support@streamlinedental.com" else fromA
  let toAF : Option String :=
    if toA = "" then
      match (db.cases.find? (fun c => c.caseId == opts.caseId)).bind
          (fun c => db.users.find? (fun u => u.userId == c.userId)) with
      | some u => u.emailAddr
      | none => some "support@streamlinedental.com"
    else some toA
  let status := (db.cases.find? (fun c => c.caseId == opts.caseId)).map CaseRow.caseStatusCode
  let subj := if jsTruthy opts.overrideSubject then opts.overrideSubject.getD "" else subj
  let msg := if jsTruthy opts.overrideMessage then opts.overrideMessage.getD "" else msg
  { fromAddress := fromA, toAddress := toAF, subject := subj, message := msg,
    ccAddress := if jsTruthy tf.ccAddress then tf.ccAddress.getD "" else "",
    bccAddress := if jsTruthy tf.bccAddress then tf.bccAddress.getD "" else "",
    caseStatusCode := status }

/-- The `case_ticket` row `createTicket` inserts. -/
def ticketRowOf (opts : TicketOptions) (db : DB) : CaseTicketRow :=
  { id := db.nextTicketId, caseId := opts.caseId, ticketNumber := nextTicketNumber opts.caseId db,
    status := opts.ticketStatus, isDueDateTicket := opts.isDueDateTicket,
    scheduleDate := opts.ticketScheduleDate,
    scheduleStatusId := (resolveTemplateData opts db).scheduleStatusId }

/-- The `case_ticket_detail` row `createTicket` inserts: detail number fixed
at 1, action fixed at "Email", cc/bcc coalesced to `""`, the raw
`templateId` stored even when no template row was found. -/
def ticketDetailRowOf (opts : TicketOptions) (db : DB) : TicketDetailRow :=
  let f := composeTicketFields opts db
  { id := db.nextDetailId, caseTicketId := db.nextTicketId,
    assignedToUserId := resolvedAssignee opts, detailNumber := 1, action := "Email",
    fromAddress := f.fromAddress, toAddress := f.toAddress, ccAddress := f.ccAddress,
    bccAddress := f.bccAddress, emailTemplateId := opts.templateId, subject := f.subject,
    message := f.message, createdBy := opts.userId, caseStatusCode := f.caseStatusCode }

/-- `createTicket` of src/utils/ticketService.js: persists the ticket and
its detail and returns the new detail id.  The assignment-log step is a
commented-out block in this file, so no log row is written. -/
def createTicketU (opts : TicketOptions) (db : DB) : Nat × DB :=
  (db.nextDetailId,
   { db with
       tickets := db.tickets ++ [ticketRowOf opts db],
       details := db.details ++ [ticketDetailRowOf opts db],
       nextTicketId := db.nextTicketId + 1,
       nextDetailId := db.nextDetailId + 1 })

/-- `ticketQueries.checkTicketAssignmentLog`: the count of log rows for this
detail whose timestamp equals the detail's latest log timestamp and whose
assignee is `assignedTo` (`0` when the detail has no log rows, since the
inner `MAX` is `NULL`). -/
def checkAssignmentFlag (detailId assignedTo : Nat) (logs : List AssignmentLogRow) : Nat :=
  match ((logs.filter (fun r => r.caseTicketDetailId == detailId)).map
      AssignmentLogRow.recordTimeAndDate).max? with
  | none => 0
  | some m =>
    (logs.filter (fun r =>
      r.caseTicketDetailId == detailId && r.recordTimeAndDate == m &&
        r.assignedToUserId == assignedTo)).length

/-- The latest log timestamp for a detail (the inner `SELECT MAX(…)`). -/
def maxLogTime (detailId : Nat) (logs : List AssignmentLogRow) : Option Nat :=
  ((logs.filter (fun r => r.caseTicketDetailId == detailId)).map
    AssignmentLogRow.recordTimeAndDate).max?

/-- `createTicket` of src/services/ticketService.js: the same steps as the
utils copy, plus step 8 — append an assignment-log row unless the most
recent log entry for the new detail already names the same assignee. -/
def createTicketS (opts : TicketOptions) (db : DB) : Nat × DB :=
  let did := db.nextDetailId
  let a := resolvedAssignee opts
  let db1 := (createTicketU opts db).2
  if checkAssignmentFlag did a db.assignLogs = 0 then
    (did, { db1 with assignLogs := db1.assignLogs ++ [⟨did, a, opts.userId, db.now⟩] })
  else
    (did, db1)

/-! ## Case import (`POST /cases/create-case`, src/routes/cases.js) -/

/-- The `dbo.[Case]` row `caseQueries.insertCase` writes:
`Case_Date_Received = GETDATE()`,
`Case_Date_Required_By_DR = DATEADD(day, :daysRequired, GETDATE())` with
`daysRequired = isRush ? 7 : 14`, and
`Case_Date_Estimated_Return = DATEADD(day, 14, GETDATE())` unconditionally;
the associative ids are the route's fixed constants. -/
def newCaseRow (cd : ExtractedCase) (now : Nat) : CaseRow :=
  { caseId := cd.caseId, userId := 8437, caseCustomerId := 2283,
    caseDateReceived := now,
    caseDateRequiredByDR := now + (if cd.isRush then 7 else 14),
    casePatientFirstName := cd.firstName, casePatientLastName := cd.lastName,
    casePatientNum := cd.orderNumber, shopifyEmail := cd.email,
    caseRXInstructions := cd.instructions, caseStatusCode := 10, caseLabId := 52,
    caseSTRInvoiceDate := now, caseDateEstimatedReturn := now + 14, shipToId := 2595,
    caseLabInvoiceFee := 0, caseClinicPONumber := cd.orderNumber, shipCarrierId := 102,
    invoiceApprovedForPayment := "N", doctorReviewed := "Y",
    isRushOrder := if cd.isRush then 1 else 0 }

/-- The `dbo.CaseTransaction` row `caseQueries.insertCaseTransaction`
writes. -/
def newTxRow (cd : ExtractedCase) (user : Principal) (now : Nat) : CaseTransactionRow :=
  { caseId := cd.caseId, trnEmployeeId := user.userName, userId := user.userId,
    trnStatusCode := 10, trnShipRefNum := none, caseDateRecordCreated := now,
    trnShipCompany := none, shipCarrierId := 102 }

/-- The per-row effect of `caseQueries.updateCaseAfterLineItems`. -/
def applyLineItemsUpdate (caseId : String) (c : CaseRow) : CaseRow :=
  if c.caseId == caseId then
    { c with rxInstructionsReviewed := some "Y", itemTeethShadeReviewed := some "Y",
             caseType := some 1, caseLabId := 52 }
  else c

/-- `UPDATE dbo.[Case] SET RXInstructionsReviewed = 'Y',
ItemTeethShadeReviewed = 'Y', CaseType = 1, Case_Lab_ID = 52
WHERE Case_ID = :caseId`. -/
def updateCaseAfterLineItems (caseId : String) (db : DB) : DB :=
  { db with cases := db.cases.map (applyLineItemsUpdate caseId) }

/-- `processEncodedSku` (lines 150-240): decode the SKU; on failure
("Invalid SKU format") do nothing; otherwise insert one `Case_Items` row
(shade copied into all three shade columns, qty into `modifier`) and, when
the returned identity is truthy, one tooth row per anatomical location the
decoded label contains. -/
def processEncodedSku (sku : String) (caseId : String) (db : DB) : DB :=
  match decodeSku sku with
  | none => db
  | some d =>
    let row : CaseItemRow :=
      { id := db.nextItemId, caseId := caseId, name := d.product,
        caseItemTooth := d.toothLocation, caseItemQty := d.qty,
        caseItemShadeGing := d.shade, caseItemShadeBody := d.shade,
        caseItemShadeIncis := d.shade, modifier := d.qty, unitPrice := "0.00" }
    let db1 := { db with items := db.items ++ [row], nextItemId := db.nextItemId + 1 }
    if row.id ≠ 0 then
      let db2 :=
        if hasSubstr "Upper" d.toothLocation then
          { db1 with teeth := db1.teeth ++ [⟨row.id, "Upper"⟩] }
        else db1
      if hasSubstr "Lower" d.toothLocation then
        { db2 with teeth := db2.teeth ++ [⟨row.id, "Lower"⟩] }
      else db2
    else db1

/-- The SKUs harvested from the order note by the embedded-pattern scan
(`orderData.note.match(skuPattern)` behind a truthiness guard). -/
def noteSkusOf (o : Order) : List String :=
  if jsTruthy o.note then scanSkus (o.note.getD "") else []

/-- The line-item SKUs that begin with the `--` encoding marker. -/
def lineItemSkusOf (o : Order) : List String :=
  ((o.lineItems.getD []).map (fun it => it.sku.getD "")).filter (fun s => jsStartsWith "--" s)

/-- The option bag of the fallback ticket (template 1363, status "Open"). -/
def fallbackTicketOptions (caseId : String) (userId : Nat) : TicketOptions :=
  { caseId := caseId, userId := userId, templateId := some 1363, ticketStatus := "Open" }

/-- `processOrderLineItems` (lines 75-143): when note and line items yield
no encoded SKU, create the fallback ticket; otherwise decode each SKU in
order (note SKUs first).  Either way finish with the review-flags update.
The source's catch-and-log wrapper never fires in this model because every
modelled query is total. -/
def processOrderLineItems (o : Order) (caseId : String) (userId : Nat) (db : DB) : DB :=
  let noteSkus := noteSkusOf o
  let lineItemSkus := lineItemSkusOf o
  if noteSkus.isEmpty && lineItemSkus.isEmpty then
    updateCaseAfterLineItems caseId (createTicketU (fallbackTicketOptions caseId userId) db).2
  else
    updateCaseAfterLineItems caseId
      ((noteSkus ++ lineItemSkus).foldl (fun d s => processEncodedSku s caseId d) db)

/-- What `POST /cases/create-case` sends back: HTTP status plus the JSON
`message`/`code` pair on error, or the `data` payload on success. -/
inductive CreateCaseResult where
  | success (caseId orderNumber : String)
  | failure (status : Nat) (message : String) (code : String)
  deriving DecidableEq, Repr

/-- The `POST /cases/create-case` handler (lines 481-603): validate the
body, extract, reject duplicates, insert the case and its opening
transaction, process line items, commit.  Every error path rolls back (or
never started writing), so it returns the incoming `db`.  The catch block
maps errors whose message contains "Missing" to 400/`MISSING_CASE_DATA`
and everything else to 500/`DATABASE_ERROR`. -/
def createCase (orderData : Option Order) (user : Principal) (db : DB) :
    CreateCaseResult × DB :=
  match orderData with
  | none => (.failure 400 "orderData is required" "MISSING_CASE_DATA", db)
  | some o =>
    match extractCaseDataFromOrder o user.userId with
    | .error m =>
      if hasSubstr "Missing" m then (.failure 400 m "MISSING_CASE_DATA", db)
      else (.failure 500 m "DATABASE_ERROR", db)
    | .ok cd =>
      if db.cases.any (fun c => c.caseId == cd.caseId) then
        (.failure 400 "Case has already been imported" "CASE_ALREADY_EXISTS", db)
      else
        let db1 := { db with cases := db.cases ++ [newCaseRow cd db.now] }
        let db2 := { db1 with txs := db1.txs ++ [newTxRow cd user db.now] }
        let db3 := processOrderLineItems o cd.caseId user.userId db2
        (.success cd.caseId cd.orderNumber, db3)

/-! ## Helper lemmas: the SKU normalization chain on pattern matches -/

theorem list_map_id_of {α : Type} (f : α → α) (l : List α) (h : ∀ x ∈ l, f x = x) :
    l.map f = l := by
  induction l with
  | nil => rfl
  | cons a t ih =>
    simp only [List.map_cons]
    rw [h a (List.mem_cons_self a t), ih (fun x hx => h x (List.mem_cons_of_mem a hx))]

theorem prodChar_ne {c : Char} (h : isProdChar c = true) : c ≠ '-' ∧ c ≠ '.' := by
  refine ⟨?_, ?_⟩ <;> (intro hc; rw [hc] at h; revert h; decide)

theorem alphaUp_ne {c : Char} (h : isAlphaUp c = true) : c ≠ '-' ∧ c ≠ '.' := by
  refine ⟨?_, ?_⟩ <;> (intro hc; rw [hc] at h; revert h; decide)

theorem dotToTilde_fix {c : Char} (h : c ≠ '.') : dotToTilde c = c := if_neg h

theorem dashToDot_fix {c : Char} (h : c ≠ '-') : dashToDot c = c := if_neg h

theorem shade_mapped_ne {c : Char} (h : isShadeChar c = true) :
    dotToTilde c ≠ '-' ∧ dotToTilde c ≠ '.' := by
  by_cases hc : c = '.'
  · subst hc; exact ⟨by decide, by decide⟩
  · rw [dotToTilde_fix hc]
    refine ⟨?_, hc⟩
    intro hd; rw [hd] at h; revert h; decide

theorem stripDD_dashdash (t : List Char) : stripDD ('-' :: '-' :: t) = stripDD t := by
  simp [stripDD]

theorem stripDD_cons (a : Char) (t : List Char) (ha : a ≠ '-') :
    stripDD (a :: t) = a :: stripDD t := by
  cases t with
  | nil => rfl
  | cons b t' =>
    simp only [stripDD]
    rw [if_neg (fun hc => ha hc.1)]

theorem stripDD_append_nodash (l t : List Char) (h : ∀ x ∈ l, x ≠ '-') :
    stripDD (l ++ t) = l ++ stripDD t := by
  induction l with
  | nil => rfl
  | cons a l' ih =>
    rw [List.cons_append, stripDD_cons a (l' ++ t) (h a (List.mem_cons_self a l')),
      ih (fun x hx => h x (List.mem_cons_of_mem a hx)), List.cons_append]

theorem stripDD_dash_block (l t : List Char) (h0 : l ≠ []) (h : ∀ x ∈ l, x ≠ '-') :
    stripDD ('-' :: l ++ t) = '-' :: l ++ stripDD t := by
  cases l with
  | nil => exact absurd rfl h0
  | cons b0 b1 =>
    have hb0 : b0 ≠ '-' := h b0 (List.mem_cons_self b0 b1)
    calc stripDD ('-' :: (b0 :: b1) ++ t)
        = stripDD ('-' :: b0 :: (b1 ++ t)) := by simp
      _ = '-' :: stripDD (b0 :: (b1 ++ t)) := by
            simp only [stripDD]
            rw [if_neg (fun hc => hb0 hc.2)]
      _ = '-' :: stripDD ((b0 :: b1) ++ t) := by simp
      _ = '-' :: ((b0 :: b1) ++ stripDD t) := by rw [stripDD_append_nodash _ _ h]
      _ = '-' :: (b0 :: b1) ++ stripDD t := by simp

theorem splitOnDot_cons_ne (a : Char) (t : List Char) (ha : a ≠ '.') :
    splitOnDot (a :: t) =
      match splitOnDot t with
      | [] => [[a]]
      | r :: rs => (a :: r) :: rs := by
  simp only [splitOnDot, if_neg ha]

theorem splitOnDot_append_nodot (l t : List Char) (h : ∀ x ∈ l, x ≠ '.') :
    splitOnDot (l ++ '.' :: t) = l :: splitOnDot t := by
  induction l with
  | nil => simp [splitOnDot]
  | cons a l' ih =>
    have ha := h a (List.mem_cons_self a l')
    have ih' := ih (fun x hx => h x (List.mem_cons_of_mem a hx))
    rw [List.cons_append, splitOnDot_cons_ne a _ ha, ih']

theorem splitOnDot_nodot (l : List Char) (h : ∀ x ∈ l, x ≠ '.') : splitOnDot l = [l] := by
  induction l with
  | nil => rfl
  | cons a l' ih =>
    have ha := h a (List.mem_cons_self a l')
    have ih' := ih (fun x hx => h x (List.mem_cons_of_mem a hx))
    rw [splitOnDot_cons_ne a _ ha, ih']

/-- On any full match of the note-scan pattern, the normalization chain of
`processEncodedSku` splits into exactly the three segments (with the shade
segment's dots turned into the `~` sentinel). -/
theorem skuNormalize_split (a b c : List Char) (hb0 : b ≠ []) (hc0 : c ≠ [])
    (ha : ∀ x ∈ a, isProdChar x = true) (hb : ∀ x ∈ b, isAlphaUp x = true)
    (hc : ∀ x ∈ c, isShadeChar x = true) :
    splitOnDot (skuNormalizeL ('-' :: '-' :: a ++ '-' :: b ++ '-' :: c ++ ['-', '-'])) =
      [a, b, c.map dotToTilde] := by
  have haDash : ∀ x ∈ a, x ≠ '-' := fun x hx => (prodChar_ne (ha x hx)).1
  have haDot : ∀ x ∈ a, x ≠ '.' := fun x hx => (prodChar_ne (ha x hx)).2
  have hbDash : ∀ x ∈ b, x ≠ '-' := fun x hx => (alphaUp_ne (hb x hx)).1
  have hbDot : ∀ x ∈ b, x ≠ '.' := fun x hx => (alphaUp_ne (hb x hx)).2
  have hcDash : ∀ x ∈ c.map dotToTilde, x ≠ '-' := by
    intro x hx
    obtain ⟨y, hy, rfl⟩ := List.mem_map.mp hx
    exact (shade_mapped_ne (hc y hy)).1
  have hcDot : ∀ x ∈ c.map dotToTilde, x ≠ '.' := by
    intro x hx
    obtain ⟨y, hy, rfl⟩ := List.mem_map.mp hx
    exact (shade_mapped_ne (hc y hy)).2
  have hc0' : c.map dotToTilde ≠ [] := by
    intro hcontra
    exact hc0 (List.map_eq_nil_iff.mp hcontra)
  have hma : a.map dotToTilde = a :=
    list_map_id_of _ _ (fun x hx => dotToTilde_fix (prodChar_ne (ha x hx)).2)
  have hmb : b.map dotToTilde = b :=
    list_map_id_of _ _ (fun x hx => dotToTilde_fix (alphaUp_ne (hb x hx)).2)
  have hdtd : dotToTilde '-' = '-' := rfl
  have h1 : ('-' :: '-' :: a ++ '-' :: b ++ '-' :: c ++ ['-', '-']).map dotToTilde =
      '-' :: '-' :: (a ++ '-' :: (b ++ '-' :: (c.map dotToTilde ++ ['-', '-']))) := by
    simp [hma, hmb, hdtd, List.map_append]
  have h2 : stripDD (('-' :: '-' :: a ++ '-' :: b ++ '-' :: c ++ ['-', '-']).map dotToTilde) =
      a ++ '-' :: (b ++ '-' :: c.map dotToTilde) := by
    rw [h1, stripDD_dashdash, stripDD_append_nodash _ _ haDash]
    rw [show ('-' :: (b ++ '-' :: (c.map dotToTilde ++ ['-', '-']))) =
        ('-' :: b ++ ('-' :: (c.map dotToTilde ++ ['-', '-']))) by simp]
    rw [stripDD_dash_block _ _ hb0 hbDash]
    rw [show ('-' :: (c.map dotToTilde ++ ['-', '-'])) =
        ('-' :: c.map dotToTilde ++ ['-', '-']) by simp]
    rw [stripDD_dash_block _ _ hc0' hcDash]
    have : stripDD ['-', '-'] = [] := stripDD_dashdash []
    rw [this]
    simp
  have hmda : a.map dashToDot = a := list_map_id_of _ _ (fun x hx => dashToDot_fix (haDash x hx))
  have hmdb : b.map dashToDot = b := list_map_id_of _ _ (fun x hx => dashToDot_fix (hbDash x hx))
  have hmdc : (c.map dotToTilde).map dashToDot = c.map dotToTilde :=
    list_map_id_of _ _ (fun x hx => dashToDot_fix (hcDash x hx))
  have h3 : skuNormalizeL ('-' :: '-' :: a ++ '-' :: b ++ '-' :: c ++ ['-', '-']) =
      a ++ '.' :: (b ++ '.' :: c.map dotToTilde) := by
    rw [skuNormalizeL, h2]
    simp [List.map_append, hmda, hmdb, hmdc, dashToDot]
  rw [h3, splitOnDot_append_nodot _ _ haDot, splitOnDot_append_nodot _ _ hbDot,
    splitOnDot_nodot _ hcDot]

/-! ## Helper lemmas: which tables each operation touches -/

theorem createTicketU_cases (opts : TicketOptions) (db : DB) :
    ((createTicketU opts db).2).cases = db.cases := rfl

theorem createTicketU_items (opts : TicketOptions) (db : DB) :
    ((createTicketU opts db).2).items = db.items := rfl

theorem createTicketU_assignLogs (opts : TicketOptions) (db : DB) :
    ((createTicketU opts db).2).assignLogs = db.assignLogs := rfl

theorem createTicketU_tickets (opts : TicketOptions) (db : DB) :
    ((createTicketU opts db).2).tickets = db.tickets ++ [ticketRowOf opts db] := rfl

theorem createTicketU_details (opts : TicketOptions) (db : DB) :
    ((createTicketU opts db).2).details = db.details ++ [ticketDetailRowOf opts db] := rfl

theorem processEncodedSku_cases (sku caseId : String) (db : DB) :
    (processEncodedSku sku caseId db).cases = db.cases := by
  cases h : decodeSku sku with
  | none => simp only [processEncodedSku, h]
  | some d =>
    simp only [processEncodedSku, h]
    split_ifs <;> rfl

theorem foldProcess_cases (skus : List String) (caseId : String) (db : DB) :
    ((skus.foldl (fun d s => processEncodedSku s caseId d) db)).cases = db.cases := by
  induction skus generalizing db with
  | nil => rfl
  | cons s rest ih => rw [List.foldl_cons, ih, processEncodedSku_cases]

theorem applyLineItemsUpdate_caseId (cid : String) (c : CaseRow) :
    (applyLineItemsUpdate cid c).caseId = c.caseId := by
  unfold applyLineItemsUpdate
  split <;> rfl

theorem processOrderLineItems_cases (o : Order) (caseId : String) (userId : Nat) (db : DB) :
    (processOrderLineItems o caseId userId db).cases =
      db.cases.map (applyLineItemsUpdate caseId) := by
  simp only [processOrderLineItems]
  by_cases hc : (noteSkusOf o).isEmpty && (lineItemSkusOf o).isEmpty
  · rw [if_pos hc]; rfl
  · rw [if_neg hc]
    show (((noteSkusOf o ++ lineItemSkusOf o).foldl
        (fun d s => processEncodedSku s caseId d) db).cases).map (applyLineItemsUpdate caseId) = _
    rw [foldProcess_cases]

theorem countP_map_update (p cid : String) (l : List CaseRow) :
    ((l.map (applyLineItemsUpdate cid)).countP (fun c => c.caseId == p)) =
      l.countP (fun c => c.caseId == p) := by
  induction l with
  | nil => rfl
  | cons a t ih =>
    simp only [List.map_cons, List.countP_cons, ih, applyLineItemsUpdate_caseId]

/-- The success path of `createCase`: a valid, non-duplicate order returns
the success payload, and the final case table is the old one plus the new
row with the review-flags update applied. -/
theorem createCase_ok (o : Order) (u : Principal) (db : DB) (cd : ExtractedCase)
    (hx : extractCaseDataFromOrder o u.userId = Except.ok cd)
    (hno : db.cases.any (fun c => c.caseId == cd.caseId) = false) :
    (createCase (some o) u db).1 = .success cd.caseId cd.orderNumber ∧
    (createCase (some o) u db).2.cases =
      (db.cases ++ [newCaseRow cd db.now]).map (applyLineItemsUpdate cd.caseId) := by
  have hmain : createCase (some o) u db =
      (.success cd.caseId cd.orderNumber,
        processOrderLineItems o cd.caseId u.userId
          { db with cases := db.cases ++ [newCaseRow cd db.now],
                    txs := db.txs ++ [newTxRow cd u db.now] }) := by
    simp only [createCase, hx, hno, Bool.false_eq_true, if_false]
  refine ⟨by rw [hmain], ?_⟩
  rw [hmain]
  show (processOrderLineItems o cd.caseId u.userId _).cases = _
  rw [processOrderLineItems_cases]

/-- The duplicate path of `createCase`: an existing row with the same case
id yields the duplicate error and leaves the state untouched. -/
theorem createCase_dup (o : Order) (u : Principal) (db : DB) (cd : ExtractedCase)
    (hx : extractCaseDataFromOrder o u.userId = Except.ok cd)
    (hdup : db.cases.any (fun c => c.caseId == cd.caseId) = true) :
    createCase (some o) u db =
      (.failure 400 "Case has already been imported" "CASE_ALREADY_EXISTS", db) := by
  simp only [createCase, hx, hdup, if_true]

/-! ## Claim C10 -/

/-- C10: every string matched by the note-scan regex normalizes and splits
into exactly 3 fields, so the "Invalid SKU format" early return of
`processEncodedSku` is unreachable for note-derived SKUs; it is reachable
for line-item SKUs that merely begin with `--` (e.g. `"--AB"`). -/
theorem note_sku_split_safe :
    (∀ s : List Char, matchesSkuPattern s → (decodeSkuL s).isSome = true) ∧
    decodeSku "--AB" = none ∧ jsStartsWith "--" "--AB" = true := by
  refine ⟨?_, by decide, by decide⟩
  intro s hs
  obtain ⟨a, b, c, _, hb0, hc0, ha, hb, hc, rfl⟩ := hs
  have hsplit := skuNormalize_split a b c hb0 hc0 ha hb hc
  simp only [decodeSkuL, hsplit]
  rfl

/-- C10 witness: the round-trip SKU of the spec is matched by the pattern
and decodes successfully. -/
theorem note_sku_split_safe_witness :
    (decodeSkuL ("--A1-UL-R33330.1--".data)).isSome = true :=
  note_sku_split_safe.1 ("--A1-UL-R33330.1--".data)
    ⟨['A', '1'], ['U', 'L'], "R33330.1".data, by decide, by decide, by decide, by decide,
      by decide, by decide, by decide⟩

/-! ## Claim C1 -/

/-- C1 (counterexample): decoding `"--A1-UL-R33330.1--"` yields product
`"A1"` — the first dash-field — not `"R33330.1"` as the claim states
(`"R33330.1"` lands in the shade field, with its dot still encoded as the
`~` sentinel). -/
theorem sku_decode_product_counterexample :
    (decodeSku "--A1-UL-R33330.1--").map DecodedSku.product = some "A1" ∧
    ("A1" : String) ≠ "R33330.1" := ⟨by decide, by decide⟩

/-- C1 (amended): `processEncodedSku "--A1-UL-R33330.1--"` inserts exactly
one CaseItem whose product (`name`) is `"A1"`, tooth location
`"Upper, Lower"`, quantity 2 and shade `"R33330~1"`, plus exactly two
CaseItemTooth rows (`"Upper"` and `"Lower"`) for that item. -/
theorem sku_decode_amended (db : DB) (caseId : String) (h : db.nextItemId ≠ 0) :
    processEncodedSku "--A1-UL-R33330.1--" caseId db =
      { db with
          items := db.items ++
            [{ id := db.nextItemId, caseId := caseId, name := "A1",
               caseItemTooth := "Upper, Lower", caseItemQty := 2,
               caseItemShadeGing := "R33330~1", caseItemShadeBody := "R33330~1",
               caseItemShadeIncis := "R33330~1", modifier := 2, unitPrice := "0.00" }],
          teeth := db.teeth ++ [⟨db.nextItemId, "Upper"⟩, ⟨db.nextItemId, "Lower"⟩],
          nextItemId := db.nextItemId + 1 } := by
  have hd : decodeSku "--A1-UL-R33330.1--" =
      some { product := "A1", toothLocation := "Upper, Lower", qty := 2,
             shade := "R33330~1" } := by decide
  have hU : hasSubstr "Upper" "Upper, Lower" = true := by decide
  have hL : hasSubstr "Lower" "Upper, Lower" = true := by decide
  simp only [processEncodedSku, hd]
  simp [h, hU, hL, List.append_assoc]

/-- C1 witness: the amended decoding evaluated on the empty database. -/
theorem sku_decode_amended_witness :
    processEncodedSku "--A1-UL-R33330.1--" "2" {} =
      { ({} : DB) with
          items := [{ id := 1, caseId := "2", name := "A1",
                      caseItemTooth := "Upper, Lower", caseItemQty := 2,
                      caseItemShadeGing := "R33330~1", caseItemShadeBody := "R33330~1",
                      caseItemShadeIncis := "R33330~1", modifier := 2, unitPrice := "0.00" }],
          teeth := [⟨1, "Upper"⟩, ⟨1, "Lower"⟩],
          nextItemId := 2 } :=
  sku_decode_amended {} "2" (by decide)

/-! ## Concrete fixtures for witnesses -/

/-- A minimal valid order: email and first name present, a non-empty note
with no embedded SKU, no line items. -/
def orderW : Order :=
  { name := "88675969", note := some "hello",
    customer := some { firstName := some "Jane", email := some "j@x.com" } }

/-- The authenticated user of the witnesses. -/
def userW : Principal := { userId := 7, userName := "jdoe" }

/-- What extraction produces for `orderW`. -/
def extractedW : ExtractedCase :=
  { caseId := "88675969", firstName := "Jane", lastName := "", email := "j@x.com",
    instructions := "hello", userId := 7, isRush := false, orderNumber := "88675969" }

/-! ## Claim C3 -/

theorem applyLineItemsUpdate_dates (cid : String) (c : CaseRow) :
    (applyLineItemsUpdate cid c).caseDateReceived = c.caseDateReceived ∧
    (applyLineItemsUpdate cid c).caseDateRequiredByDR = c.caseDateRequiredByDR ∧
    (applyLineItemsUpdate cid c).caseDateEstimatedReturn = c.caseDateEstimatedReturn := by
  unfold applyLineItemsUpdate
  split <;> exact ⟨rfl, rfl, rfl⟩

/-- C3: a successfully imported order's Case row has
required-by = received + 7 days when rush (else + 14), while
estimated-return = received + 14 days regardless of the rush flag. -/
theorem rush_date_asymmetry (o : Order) (u : Principal) (db : DB) (cd : ExtractedCase)
    (hx : extractCaseDataFromOrder o u.userId = Except.ok cd)
    (hno : db.cases.any (fun c => c.caseId == cd.caseId) = false) :
    ∃ r ∈ (createCase (some o) u db).2.cases,
      r.caseId = cd.caseId ∧
      r.caseDateReceived = db.now ∧
      r.caseDateRequiredByDR = db.now + (if cd.isRush then 7 else 14) ∧
      r.caseDateEstimatedReturn = db.now + 14 := by
  obtain ⟨-, hcases⟩ := createCase_ok o u db cd hx hno
  refine ⟨applyLineItemsUpdate cd.caseId (newCaseRow cd db.now), ?_, ?_, ?_, ?_, ?_⟩
  · rw [hcases]
    exact List.mem_map_of_mem _ (List.mem_append_right _ (by simp))
  · rw [applyLineItemsUpdate_caseId]; rfl
  · exact (applyLineItemsUpdate_dates _ _).1
  · exact (applyLineItemsUpdate_dates _ _).2.1
  · exact (applyLineItemsUpdate_dates _ _).2.2

/-- C3 witness: the date columns of the Case row created for `orderW` on
an empty database. -/
theorem rush_date_asymmetry_witness :
    ∃ r ∈ (createCase (some orderW) userW {}).2.cases,
      r.caseId = extractedW.caseId ∧
      r.caseDateReceived = ({} : DB).now ∧
      r.caseDateRequiredByDR = ({} : DB).now + (if extractedW.isRush then 7 else 14) ∧
      r.caseDateEstimatedReturn = ({} : DB).now + 14 :=
  rush_date_asymmetry orderW userW {} extractedW rfl rfl

/-! ## Claim C2 -/

/-- C2: with a valid order, an existing Case row with the same case id
makes the import return the duplicate error ("Case has already been
imported", `CASE_ALREADY_EXISTS`) and write nothing; consequently
importing the same order twice succeeds once, fails the second time with
that error and an unchanged state, and persists exactly one Case row with
that case id. -/
theorem case_import_idempotent_rejection (o : Order) (u : Principal) (db : DB)
    (cd : ExtractedCase)
    (hx : extractCaseDataFromOrder o u.userId = Except.ok cd) :
    ((∃ c ∈ db.cases, c.caseId = cd.caseId) →
      createCase (some o) u db =
        (.failure 400 "Case has already been imported" "CASE_ALREADY_EXISTS", db)) ∧
    (db.cases.countP (fun c => c.caseId == cd.caseId) = 0 →
      (createCase (some o) u db).1 = .success cd.caseId cd.orderNumber ∧
      (createCase (some o) u ((createCase (some o) u db).2)).1 =
        .failure 400 "Case has already been imported" "CASE_ALREADY_EXISTS" ∧
      (createCase (some o) u ((createCase (some o) u db).2)).2 =
        (createCase (some o) u db).2 ∧
      ((createCase (some o) u db).2).cases.countP (fun c => c.caseId == cd.caseId) = 1) := by
  constructor
  · rintro ⟨c, hc, hceq⟩
    apply createCase_dup o u db cd hx
    rw [List.any_eq_true]
    exact ⟨c, hc, by rw [hceq]; exact beq_self_eq_true _⟩
  · intro h0
    have hno : db.cases.any (fun c => c.caseId == cd.caseId) = false := by
      rw [List.any_eq_false]
      intro c hc
      have := List.countP_eq_zero.mp h0 c hc
      simpa using this
    obtain ⟨hs, hcases⟩ := createCase_ok o u db cd hx hno
    have hmem : newCaseRow cd db.now ∈ db.cases ++ [newCaseRow cd db.now] :=
      List.mem_append_right _ (by simp)
    have hdup2 : ((createCase (some o) u db).2).cases.any
        (fun c => c.caseId == cd.caseId) = true := by
      rw [hcases, List.any_eq_true]
      refine ⟨applyLineItemsUpdate cd.caseId (newCaseRow cd db.now),
        List.mem_map_of_mem _ hmem, ?_⟩
      rw [applyLineItemsUpdate_caseId]
      exact beq_self_eq_true _
    have hdup := createCase_dup o u ((createCase (some o) u db).2) cd hx hdup2
    refine ⟨hs, by rw [hdup], by rw [hdup], ?_⟩
    rw [hcases, countP_map_update, List.countP_append, h0]
    simp only [List.countP_cons]
    simp [newCaseRow]

/-- C2 witness: importing `orderW` twice on an empty database — the second
call fails with the duplicate error and exactly one Case row exists. -/
theorem case_import_idempotent_rejection_witness :
    (createCase (some orderW) userW ((createCase (some orderW) userW {}).2)).1 =
      .failure 400 "Case has already been imported" "CASE_ALREADY_EXISTS" ∧
    ((createCase (some orderW) userW {}).2).cases.countP
      (fun c => c.caseId == extractedW.caseId) = 1 :=
  ⟨((case_import_idempotent_rejection orderW userW {} extractedW rfl).2 rfl).2.1,
   ((case_import_idempotent_rejection orderW userW {} extractedW rfl).2 rfl).2.2.2⟩

/-! ## Claim C4 -/

/-- An order whose extraction passes the email and name checks but has an
empty note and no line items. -/
def orderNoInstructions : Order :=
  { name := "1", customer := some { firstName := some "A", email := some "e@x" } }

/-- An order with no customer object and no top-level email. -/
def orderNoEmail : Order := { name := "1", note := some "n" }

/-- C4 (counterexample): the empty note-and-line-items validation failure
surfaces as a 500 `DATABASE_ERROR`, not a 400-class error — its message
lacks the "Missing" marker the route's catch block keys 400 on.  The state
is still untouched. -/
theorem extraction_empty_instructions_counterexample :
    (createCase (some orderNoInstructions) userW {}).1 =
      .failure 500
        "Failed to extract case data: Failed to generate instructions. No note or line items"
        "DATABASE_ERROR" ∧
    (createCase (some orderNoInstructions) userW {}).2 = ({} : DB) ∧
    (500 : Nat) ≠ 400 := ⟨rfl, rfl, by decide⟩

/-- C4 (amended): extraction can only fail with the three fixed messages;
on any extraction failure no database write happens; the missing-email and
missing-name failures surface as 400 `MISSING_CASE_DATA`, while the empty
note-and-line-items failure surfaces as 500 `DATABASE_ERROR`. -/
theorem extraction_failure_amended (o : Order) (u : Principal) (db : DB) (m : String)
    (hx : extractCaseDataFromOrder o u.userId = Except.error m) :
    (createCase (some o) u db).2 = db ∧
    (m = "Failed to extract case data: Missing customer email" ∨
     m = "Failed to extract case data: Missing customer first and last name. One must be present." ∨
     m = "Failed to extract case data: Failed to generate instructions. No note or line items") ∧
    ((m = "Failed to extract case data: Missing customer email" ∨
      m = "Failed to extract case data: Missing customer first and last name. One must be present.") →
      createCase (some o) u db = (.failure 400 m "MISSING_CASE_DATA", db)) ∧
    (m = "Failed to extract case data: Failed to generate instructions. No note or line items" →
      createCase (some o) u db = (.failure 500 m "DATABASE_ERROR", db)) := by
  have henum : m = "Failed to extract case data: Missing customer email" ∨
      m = "Failed to extract case data: Missing customer first and last name. One must be present." ∨
      m = "Failed to extract case data: Failed to generate instructions. No note or line items" := by
    unfold extractCaseDataFromOrder at hx
    split at hx
    · injection hx with h
      exact Or.inl h.symm
    · split_ifs at hx with h1 h2
      · injection hx with h
        exact Or.inr (Or.inl h.symm)
      · injection hx with h
        exact Or.inr (Or.inr h.symm)
  have hrun : createCase (some o) u db =
      (if hasSubstr "Missing" m then (.failure 400 m "MISSING_CASE_DATA", db)
       else (.failure 500 m "DATABASE_ERROR", db)) := by
    simp only [createCase, hx]
  refine ⟨?_, henum, ?_, ?_⟩
  · rw [hrun]; split_ifs <;> rfl
  · rintro (rfl | rfl) <;> (rw [hrun, if_pos (by decide)])
  · rintro rfl
    rw [hrun, if_neg (by decide)]

/-- C4 witness: the missing-email failure on a customer-less order yields
400 and no writes. -/
theorem extraction_failure_amended_witness :
    (createCase (some orderNoEmail) userW {}).2 = ({} : DB) ∧
    ("Failed to extract case data: Missing customer email" =
       "Failed to extract case data: Missing customer email" ∨
     "Failed to extract case data: Missing customer email" =
       "Failed to extract case data: Missing customer first and last name. One must be present." ∨
     "Failed to extract case data: Missing customer email" =
       "Failed to extract case data: Failed to generate instructions. No note or line items") ∧
    (("Failed to extract case data: Missing customer email" =
        "Failed to extract case data: Missing customer email" ∨
      "Failed to extract case data: Missing customer email" =
        "Failed to extract case data: Missing customer first and last name. One must be present.") →
      createCase (some orderNoEmail) userW {} =
        (.failure 400 "Failed to extract case data: Missing customer email"
          "MISSING_CASE_DATA", {})) ∧
    ("Failed to extract case data: Missing customer email" =
        "Failed to extract case data: Failed to generate instructions. No note or line items" →
      createCase (some orderNoEmail) userW {} =
        (.failure 500 "Failed to extract case data: Missing customer email"
          "DATABASE_ERROR", {})) :=
  extraction_failure_amended orderNoEmail userW {}
    "Failed to extract case data: Missing customer email" rfl

/-! ## Claim C5 -/

/-- C5: when the order note yields no pattern match and no line-item SKU
begins with `--`, line-item processing inserts zero CaseItem rows, creates
exactly one Ticket for the case — status "Open", its detail carrying
template id 1363 — and still applies the review-flags update to the Case
row. -/
theorem fallback_ticketing (o : Order) (caseId : String) (userId : Nat) (db : DB)
    (hnote : noteSkusOf o = []) (hitems : lineItemSkusOf o = [])
    (htick : db.tickets.filter (fun t => t.caseId == caseId) = []) :
    (processOrderLineItems o caseId userId db).items = db.items ∧
    (∃ t, (processOrderLineItems o caseId userId db).tickets.filter
          (fun tk => tk.caseId == caseId) = [t] ∧
      t.status = "Open" ∧
      (∃ d, (processOrderLineItems o caseId userId db).details = db.details ++ [d] ∧
        d.caseTicketId = t.id ∧ d.emailTemplateId = some 1363)) ∧
    (∀ c ∈ (processOrderLineItems o caseId userId db).cases, c.caseId = caseId →
      c.rxInstructionsReviewed = some "Y" ∧ c.itemTeethShadeReviewed = some "Y" ∧
      c.caseType = some 1) := by
  have hcond : ((noteSkusOf o).isEmpty && (lineItemSkusOf o).isEmpty) = true := by
    rw [hnote, hitems]; rfl
  have hrun : processOrderLineItems o caseId userId db =
      updateCaseAfterLineItems caseId
        (createTicketU (fallbackTicketOptions caseId userId) db).2 := by
    simp only [processOrderLineItems, hcond, if_true]
  refine ⟨by rw [hrun]; rfl, ?_, ?_⟩
  · refine ⟨ticketRowOf (fallbackTicketOptions caseId userId) db, ?_, rfl, ?_⟩
    · rw [hrun]
      show (db.tickets ++ [ticketRowOf (fallbackTicketOptions caseId userId) db]).filter
          (fun tk => tk.caseId == caseId) = _
      rw [List.filter_append, htick]
      simp [ticketRowOf, fallbackTicketOptions]
    · exact ⟨ticketDetailRowOf (fallbackTicketOptions caseId userId) db,
        by rw [hrun]; rfl, rfl, rfl⟩
  · intro c hc hcid
    rw [hrun] at hc
    have hc' : c ∈ db.cases.map (applyLineItemsUpdate caseId) := hc
    obtain ⟨c0, hc0, rfl⟩ := List.mem_map.mp hc'
    have hcid0 : c0.caseId = caseId := by
      rw [← applyLineItemsUpdate_caseId caseId c0]
      exact hcid
    have hb : (c0.caseId == caseId) = true := by
      rw [hcid0]; exact beq_self_eq_true _
    unfold applyLineItemsUpdate
    rw [if_pos hb]
    exact ⟨rfl, rfl, rfl⟩

/-- C5 witness: `orderW` (note "hello", no line items) on an empty
database. -/
theorem fallback_ticketing_witness :
    (processOrderLineItems orderW "88675969" 7 {}).items = ({} : DB).items ∧
    (∃ t, (processOrderLineItems orderW "88675969" 7 {}).tickets.filter
          (fun tk => tk.caseId == "88675969") = [t] ∧
      t.status = "Open" ∧
      (∃ d, (processOrderLineItems orderW "88675969" 7 {}).details = ({} : DB).details ++ [d] ∧
        d.caseTicketId = t.id ∧ d.emailTemplateId = some 1363)) ∧
    (∀ c ∈ (processOrderLineItems orderW "88675969" 7 {}).cases, c.caseId = "88675969" →
      c.rxInstructionsReviewed = some "Y" ∧ c.itemTeethShadeReviewed = some "Y" ∧
      c.caseType = some 1) :=
  fallback_ticketing orderW "88675969" 7 {} rfl rfl rfl

/-! ## Claim C6 -/

theorem truthyVals_cons_false (x : Option String) (l : List (Option String))
    (h : jsTruthy x = false) : truthyVals (x :: l) = truthyVals l := by
  simp [truthyVals, List.filterMap_cons, h]

theorem truthyVals_cons_true (s : String) (l : List (Option String)) (h : s ≠ "") :
    truthyVals (some s :: l) = s :: truthyVals l := by
  simp [truthyVals, List.filterMap_cons, jsTruthy, h]

/-- C6: with a template found, the resolved to-address is the
semicolon-joined concatenation of the template default and the explicit
option (template first), either component omitted when empty; subject,
message, and from-address are pure overrides — the truthy explicit option
wins outright, else the template default is used. -/
theorem address_merge_semantics (opts : TicketOptions) (db : DB) (tid : Nat)
    (t : EmailTemplate)
    (hid : opts.templateId = some tid) (hnz : tid ≠ 0)
    (hfind : findTemplate tid db = some t) :
    ((∀ dflt o2, t.defaultToAddress = some dflt → dflt ≠ "" → opts.toAddress = some o2 →
        o2 ≠ "" → (resolveTemplateData opts db).toAddress = some (dflt ++ ";" ++ o2)) ∧
     (jsTruthy t.defaultToAddress = false → ∀ o2, opts.toAddress = some o2 → o2 ≠ "" →
        (resolveTemplateData opts db).toAddress = some o2) ∧
     (jsTruthy opts.toAddress = false → ∀ dflt, t.defaultToAddress = some dflt → dflt ≠ "" →
        (resolveTemplateData opts db).toAddress = some dflt)) ∧
    ((jsTruthy opts.subject = true → (resolveTemplateData opts db).subject = opts.subject) ∧
     (jsTruthy opts.subject = false → (resolveTemplateData opts db).subject = t.subject) ∧
     (jsTruthy opts.message = true → (resolveTemplateData opts db).message = opts.message) ∧
     (jsTruthy opts.message = false → (resolveTemplateData opts db).message = t.message) ∧
     (jsTruthy opts.fromAddress = true →
        (resolveTemplateData opts db).fromAddress = opts.fromAddress) ∧
     (jsTruthy opts.fromAddress = false →
        (resolveTemplateData opts db).fromAddress = t.defaultFromAddress)) := by
  have htid : jsTruthyNat opts.templateId = true := by
    rw [hid]; simp [jsTruthyNat, hnz]
  have hgetd : opts.templateId.getD 0 = tid := by rw [hid]; rfl
  have hres : resolveTemplateData opts db =
      { subject := if jsTruthy opts.subject then opts.subject else t.subject,
        message := if jsTruthy opts.message then opts.message else t.message,
        fromAddress :=
          if jsTruthy opts.fromAddress then opts.fromAddress else t.defaultFromAddress,
        toAddress := some (joinSemi (truthyVals [t.defaultToAddress, opts.toAddress])),
        ccAddress := some (joinSemi (truthyVals [t.defaultCCAddress, opts.ccAddress])),
        bccAddress := some (joinSemi (truthyVals [t.defaultBCCAddress, opts.bccAddress])),
        scheduleStatusId :=
          if opts.ticketStatus = "Scheduled" then
            if jsTruthyNat opts.ticketScheduleStatusId then opts.ticketScheduleStatusId
            else t.defaultScheduledStatusId
          else opts.ticketScheduleStatusId } := by
    simp only [resolveTemplateData, htid, if_true, hgetd, hfind]
  refine ⟨⟨?_, ?_, ?_⟩, ?_, ?_, ?_, ?_, ?_, ?_⟩
  · intro dflt o2 hd hdne ho ho2ne
    rw [hres, hd, ho]
    simp [truthyVals, jsTruthy, hdne, ho2ne, joinSemi]
  · intro hfalse o2 ho ho2ne
    rw [hres, ho]
    show some (joinSemi (truthyVals [t.defaultToAddress, some o2])) = some o2
    rw [truthyVals_cons_false _ _ hfalse, truthyVals_cons_true _ _ ho2ne]
    rfl
  · intro hfalse dflt hd hdne
    rw [hres, hd]
    show some (joinSemi (truthyVals [some dflt, opts.toAddress])) = some dflt
    rw [truthyVals_cons_true _ _ hdne, truthyVals_cons_false _ _ hfalse]
    rfl
  · intro htrue; rw [hres]; simp [htrue]
  · intro hfalse; rw [hres]; simp [hfalse]
  · intro htrue; rw [hres]; simp [htrue]
  · intro hfalse; rw [hres]; simp [hfalse]
  · intro htrue; rw [hres]; simp [htrue]
  · intro hfalse; rw [hres]; simp [hfalse]

/-- The email template of the address-merge witness. -/
def templateW : EmailTemplate :=
  { id := 5, subject := some "S", message := some "M",
    defaultFromAddress := some "f@x.com", defaultToAddress := some "a@x.com",
    defaultCCAddress := none, defaultBCCAddress := none, defaultScheduledStatusId := none }

/-- Ticket options supplying an explicit to-address next to the template
default. -/
def optsMergeW : TicketOptions :=
  { caseId := "1", userId := 7, templateId := some 5, toAddress := some "b@x.com" }

/-- The database holding the witness template. -/
def dbTemplateW : DB := { templates := [templateW] }

/-- C6 witness: template default `"a@x.com"` plus explicit `"b@x.com"`
resolve to `"a@x.com;b@x.com"`. -/
theorem address_merge_semantics_witness :
    (resolveTemplateData optsMergeW dbTemplateW).toAddress = some "a@x.com;b@x.com" :=
  (address_merge_semantics optsMergeW dbTemplateW 5 templateW rfl (by decide) rfl).1.1
    "a@x.com" "b@x.com" rfl (by decide) rfl (by decide)

/-! ## Claim C7 -/

/-- C7: every ticket creation stores exactly one new detail row, and
whenever a non-empty `overrideMessage` is supplied its text is the stored
message verbatim, and independently whenever a non-empty `overrideSubject`
is supplied its text is the stored subject verbatim — overrides are
applied after token substitution and address defaulting, so any `@@…`
marker inside them is preserved unresolved. -/
theorem override_bypasses_tokenization (opts : TicketOptions) (db : DB) :
    ∃ d, ((createTicketU opts db).2).details = db.details ++ [d] ∧
      (∀ m, opts.overrideMessage = some m → m ≠ "" → d.message = m) ∧
      (∀ s, opts.overrideSubject = some s → s ≠ "" → d.subject = s) := by
  refine ⟨ticketDetailRowOf opts db, rfl, ?_, ?_⟩
  · intro m hm hne
    show (composeTicketFields opts db).message = m
    simp only [composeTicketFields, hm]
    simp [jsTruthy, hne]
  · intro s hs hnes
    show (composeTicketFields opts db).subject = s
    simp only [composeTicketFields, hs]
    simp [jsTruthy, hnes]

/-- Ticket options carrying literal-token overrides. -/
def optsOverrideW : TicketOptions :=
  { caseId := "1", userId := 7, overrideMessage := some "Hello @@CASE_ID",
    overrideSubject := some "Re: @@TICKET_NUMBER" }

/-- C7 witness: both overrides, each containing a literal token marker,
are stored verbatim on the new detail row. -/
theorem override_bypasses_tokenization_witness :
    ∃ d, ((createTicketU optsOverrideW {}).2).details = ({} : DB).details ++ [d] ∧
      d.message = "Hello @@CASE_ID" ∧ d.subject = "Re: @@TICKET_NUMBER" := by
  obtain ⟨d, hd, hm, hs⟩ := override_bypasses_tokenization optsOverrideW {}
  exact ⟨d, hd, hm "Hello @@CASE_ID" rfl (by decide),
    hs "Re: @@TICKET_NUMBER" rfl (by decide)⟩

/-! ## Claim C8 -/

/-- A joined row whose status fields differ: doctor-view "X", group "Y". -/
def tokenDataC8 : TokenData := { statusDoctorView := some "X", statusGroupName := some "Y" }

/-- The token table for that row, in the implementation's fixed order. -/
def tableC8 : List (String × String) := tokenTable tokenDataC8 "1" "1-1-1" ⟨10, 11, 2026⟩

/-- The same table with the `@@STATUS` entry moved to the front. -/
def permC8 : List (String × String) := ("@@STATUS", "X") :: tableC8.erase ("@@STATUS", "X")

/-- C8 (counterexample): replacement is not order-independent.  On the text
`"@@STATUS_GROUP"`, the fixed order yields the status-group value, but a
permutation applying `@@STATUS` first yields the status value with
`"_GROUP"` appended — `@@STATUS` is a proper prefix of `@@STATUS_GROUP`. -/
theorem token_order_counterexample :
    ¬ ∀ p2 : List (String × String), List.Perm tableC8 p2 →
        applyReplacements p2 "@@STATUS_GROUP" = applyReplacements tableC8 "@@STATUS_GROUP" := by
  intro h
  have hperm : List.Perm tableC8 permC8 :=
    @List.perm_cons_erase (String × String) _ ("@@STATUS", "X") tableC8 (by decide)
  have heq := h permC8 hperm
  have h1 : applyReplacements permC8 "@@STATUS_GROUP" = "X_GROUP" := by decide
  have h2 : applyReplacements tableC8 "@@STATUS_GROUP" = "Y" := by decide
  rw [h1, h2] at heq
  exact absurd heq (by decide)

/-- C8 (amended): the substitution result depends on the order the table
is applied in: `permC8` is a permutation of the fixed table that produces
a different output on `"@@STATUS_GROUP"` (the table contains
prefix-colliding tokens — `@@STATUS` shadows the four longer status
tokens, and `@@DOCTOR_FAX` precedes and shadows `@@DOCTOR_FAX_EMAIL` even
in the fixed order). -/
theorem token_order_dependent :
    List.Perm tableC8 permC8 ∧
    applyReplacements permC8 "@@STATUS_GROUP" ≠ applyReplacements tableC8 "@@STATUS_GROUP" := by
  constructor
  · exact @List.perm_cons_erase (String × String) _ ("@@STATUS", "X") tableC8 (by decide)
  · decide

/-! ## Claim C9 -/

/-- The assignment-check count is zero exactly when no log row for the
detail sits at the detail's latest timestamp with the same assignee — in
particular, vacuously, when the detail has no log rows at all. -/
theorem checkAssignmentFlag_eq_zero (d a : Nat) (logs : List AssignmentLogRow) :
    checkAssignmentFlag d a logs = 0 ↔
      ¬ ∃ r ∈ logs, r.caseTicketDetailId = d ∧
          maxLogTime d logs = some r.recordTimeAndDate ∧ r.assignedToUserId = a := by
  unfold checkAssignmentFlag
  cases hm : ((logs.filter (fun r => r.caseTicketDetailId == d)).map
      AssignmentLogRow.recordTimeAndDate).max? with
  | none =>
    constructor
    · rintro - ⟨r, _, _, hmax, _⟩
      rw [maxLogTime, hm] at hmax
      exact Option.noConfusion hmax
    · intro _
      rfl
  | some m =>
    rw [List.length_eq_zero, List.filter_eq_nil_iff]
    constructor
    · rintro h ⟨r, hr, hd, hmax, ha⟩
      rw [maxLogTime, hm] at hmax
      injection hmax with htime
      refine h r hr ?_
      simp [hd, ha, htime.symm]
    · intro hno r hr hp
      simp only [Bool.and_eq_true, beq_iff_eq] at hp
      exact hno ⟨r, hr, hp.1.1, by rw [maxLogTime, hm, hp.1.2], hp.2⟩

/-- C9 (counterexample): in the utils `createTicket` — the implementation
the import route calls — no assignment-log row is ever written, even on a
state where the most recent log entry for the new detail does not name the
assignee (here: a state with no log rows at all), so "appended if and only
if the most recent entry does not already name the same assignee" fails
for that ticket-creation path. -/
theorem assignment_log_counterexample :
    ¬ ((((createTicketU { caseId := "1", userId := 7 } {}).2).assignLogs ≠
          ({} : DB).assignLogs) ↔
        ¬ ∃ r ∈ ({} : DB).assignLogs,
            r.caseTicketDetailId = ({} : DB).nextDetailId ∧
            maxLogTime (({} : DB).nextDetailId) (({} : DB).assignLogs) =
              some r.recordTimeAndDate ∧
            r.assignedToUserId = resolvedAssignee { caseId := "1", userId := 7 }) := by
  intro h
  have h2 : ¬ ∃ r ∈ ({} : DB).assignLogs,
      r.caseTicketDetailId = ({} : DB).nextDetailId ∧
      maxLogTime (({} : DB).nextDetailId) (({} : DB).assignLogs) =
        some r.recordTimeAndDate ∧
      r.assignedToUserId = resolvedAssignee { caseId := "1", userId := 7 } := by
    rintro ⟨r, hr, -⟩
    exact absurd hr (by simp)
  exact (h.mpr h2) rfl

/-- C9 (amended): in the services `createTicket`, after the ticket and
detail are persisted an assignment-log row naming the resolved assignee is
appended if and only if no most-recent log entry for that detail already
names the same assignee; in the utils `createTicket` (the copy the
case-import route uses) the assignment-log step is absent and the log is
never written. -/
theorem assignment_log_append_amended (opts : TicketOptions) (db : DB) :
    (((createTicketS opts db).2).assignLogs =
        db.assignLogs ++
          [⟨db.nextDetailId, resolvedAssignee opts, opts.userId, db.now⟩] ↔
      ¬ ∃ r ∈ db.assignLogs,
          r.caseTicketDetailId = db.nextDetailId ∧
          maxLogTime db.nextDetailId db.assignLogs = some r.recordTimeAndDate ∧
          r.assignedToUserId = resolvedAssignee opts) ∧
    ((∃ r ∈ db.assignLogs, r.caseTicketDetailId = db.nextDetailId ∧
        maxLogTime db.nextDetailId db.assignLogs = some r.recordTimeAndDate ∧
        r.assignedToUserId = resolvedAssignee opts) →
      ((createTicketS opts db).2).assignLogs = db.assignLogs) ∧
    ((createTicketU opts db).2).assignLogs = db.assignLogs := by
  have hrun : ((createTicketS opts db).2).assignLogs =
      if checkAssignmentFlag db.nextDetailId (resolvedAssignee opts) db.assignLogs = 0 then
        db.assignLogs ++ [⟨db.nextDetailId, resolvedAssignee opts, opts.userId, db.now⟩]
      else db.assignLogs := by
    simp only [createTicketS]
    split_ifs <;> rfl
  refine ⟨?_, ?_, rfl⟩
  · rw [hrun]
    by_cases hflag :
        checkAssignmentFlag db.nextDetailId (resolvedAssignee opts) db.assignLogs = 0
    · rw [if_pos hflag]
      exact iff_of_true rfl ((checkAssignmentFlag_eq_zero _ _ _).mp hflag)
    · rw [if_neg hflag]
      refine iff_of_false ?_ ?_
      · intro h
        have := congrArg List.length h
        simp at this
      · intro hno
        exact hflag ((checkAssignmentFlag_eq_zero _ _ _).mpr hno)
  · intro hex
    rw [hrun, if_neg (fun h0 => ((checkAssignmentFlag_eq_zero _ _ _).mp h0) hex)]

/-- C9 witness: on an empty database the services `createTicket` appends
the log row for the new detail. -/
theorem assignment_log_append_amended_witness :
    ((createTicketS { caseId := "1", userId := 7 } {}).2).assignLogs =
      ({} : DB).assignLogs ++ [⟨1, 7, 7, 0⟩] :=
  (assignment_log_append_amended { caseId := "1", userId := 7 } {}).1.mpr
    (by rintro ⟨r, hr, -⟩; exact absurd hr (by simp))
